import Mathlib

/-!
Verification of the maintenance-simulation core of `dtocean-maintenance`
(`dtocean_maintenance/main.py`, class `LCOE_Calculator`) against its
natural-language specification.

The embedding below is a shallow one:

* `datetime.datetime` values are modelled as rational numbers of seconds
  since an arbitrary epoch; `timedelta(hours = h)` is `h * 3600` and
  `timedelta(days = d)` is `d * 86400`.  `(a - b).total_seconds() // 3600`
  is the floor of the rational quotient, mirroring Python float floor
  division on exact values.
* `pandas` tables are modelled as lists of `(label, row)` pairs
  (`PTable`): `reset_index(drop=True)` relabels `0, 1, 2, …`,
  `sort(columns=…, inplace=True)` reorders the pairs but keeps the labels,
  `.loc[i]` / `.ix[i]` is lookup or update by label, and `.ix[len t] = r`
  appends a fresh row with label `len t`, exactly as in pandas 0.x.
* Python floats are modelled as rationals; fallible Python code (raising
  `ZeroDivisionError`, `KeyError`, `UnboundLocalError`, `RuntimeError`)
  is modelled with `Option`, `none` standing for the raised exception.
* Python `in` on strings (substring test) is `pyIn`, on lists `pyElem`.
-/

namespace DTOceanMaint

/-! ## Python primitives -/

/-- Substring prefix test on character lists: does `p` occur at the head
of `l`? -/
def charsLead : List Char → List Char → Bool
  | [], _ => true
  | _ :: _, [] => false
  | a :: as, b :: bs => a == b && charsLead as bs

/-- Substring containment on character lists: does `p` occur anywhere in
`l`? -/
def charsContain (p : List Char) : List Char → Bool
  | [] => charsLead p []
  | c :: cs => charsLead p (c :: cs) || charsContain p cs

/-- Python `p in s` for strings: substring containment. -/
def pyIn (p s : String) : Bool := charsContain p.data s.data

/-- Python `x in l` for lists. -/
def pyElem [BEq α] (x : α) (l : List α) : Bool := l.contains x

/-- Python 2 `round(x, d)` with `pow = 10 ^ d`: round half away from
zero, idealised to exact rational arithmetic. -/
def pyRound (x : ℚ) (pow : ℚ) : ℚ :=
  if 0 ≤ x then ((⌊x * pow + 1/2⌋ : ℤ) : ℚ) / pow
  else -(((⌊(-x) * pow + 1/2⌋ : ℤ) : ℚ) / pow)

/-- `numpy.isclose(x, 0)` with the default tolerances
`atol = 1e-8`, `rtol = 1e-5`: `|x - 0| ≤ atol + rtol * |0| = 1e-8`. -/
def npIsCloseZero (x : ℚ) : Bool := |x| ≤ 1 / 100000000

/-- Floor division of a seconds quantity by 3600, as in
`secs // 3600` on the result of `total_seconds()`. -/
def floorDivHours (secs : ℚ) : ℚ := ((⌊secs / 3600⌋ : ℤ) : ℚ)

/-! ## Labelled tables (pandas DataFrames) -/

/-- A pandas table: rows tagged with their integer index labels. -/
abbrev PTable (α : Type) : Type := List (Nat × α)

/-- Label lookup, `table.loc[i]` on the reading side; `none` is a raised
`KeyError`. -/
def lookupLabel : PTable α → Nat → Option α
  | [], _ => none
  | p :: ps, i => if p.1 == i then some p.2 else lookupLabel ps i

/-- Label update, `table.loc[i, col] = v`:  rewrite the row carrying
label `i`, leave every other row alone. -/
def updateLabel (t : PTable α) (i : Nat) (f : α → α) : PTable α :=
  t.map (fun p => if p.1 == i then (p.1, f p.2) else p)

/-- Attach consecutive labels starting from `start`. -/
def attachLabels (start : Nat) : List α → List (Nat × α)
  | [] => []
  | a :: as => (start, a) :: attachLabels (start + 1) as

/-- `table.reset_index(drop=True, inplace=True)`: keep the row order,
relabel `0, 1, 2, …`. -/
def resetIndex (t : PTable α) : PTable α := attachLabels 0 (t.map Prod.snd)

/-- Insert into a list sorted by `key` (stable: equal keys keep the
incumbent first). -/
def insertByKey (key : α → ℚ) (a : α) : List α → List α
  | [] => [a]
  | b :: bs => if key b ≤ key a then b :: insertByKey key a bs else a :: b :: bs

/-- Stable sort by a rational key, modelling
`table.sort(columns=…, inplace=True)`. -/
def sortByKey (key : α → ℚ) : List α → List α
  | [] => []
  | a :: as => insertByKey key a (sortByKey key as)

theorem mem_insertByKey (key : α → ℚ) (a x : α) (l : List α) :
    x ∈ insertByKey key a l ↔ x = a ∨ x ∈ l := by
  induction l with
  | nil => simp [insertByKey]
  | cons b bs ih =>
      by_cases h : key b ≤ key a
      · simp only [insertByKey, if_pos h, List.mem_cons, ih]
        tauto
      · simp only [insertByKey, if_neg h, List.mem_cons]

theorem mem_sortByKey (key : α → ℚ) (x : α) (l : List α) :
    x ∈ sortByKey key l ↔ x ∈ l := by
  induction l with
  | nil => simp [sortByKey]
  | cons a as ih => simp [sortByKey, mem_insertByKey, ih]

theorem mem_attachLabels (p : Nat × α) (s : Nat) (l : List α) :
    p ∈ attachLabels s l → p.2 ∈ l := by
  induction l generalizing s with
  | nil => simp [attachLabels]
  | cons a as ih =>
      intro h
      rcases List.mem_cons.mp h with h | h
      · simp [h]
      · exact List.mem_cons_of_mem _ (ih _ h)

theorem attachLabels_map_fst (s : Nat) (l : List α) :
    (attachLabels s l).map Prod.fst = List.range' s l.length := by
  induction l generalizing s with
  | nil => simp [attachLabels]
  | cons a as ih => simp [attachLabels, List.range', ih]

theorem attachLabels_length (s : Nat) (l : List α) :
    (attachLabels s l).length = l.length := by
  induction l generalizing s with
  | nil => rfl
  | cons a as ih => simp [attachLabels, ih]

theorem resetIndex_length (t : PTable α) :
    (resetIndex t).length = t.length := by
  simp [resetIndex, attachLabels_length]

theorem resetIndex_labels (t : PTable α) :
    (resetIndex t).map Prod.fst = List.range t.length := by
  have h := attachLabels_map_fst 0 (t.map Prod.snd)
  simp only [resetIndex, h, List.length_map]
  exact (List.range_eq_range' t.length).symm

theorem mem_resetIndex (p : Nat × α) (t : PTable α) :
    p ∈ resetIndex t → p.2 ∈ t.map Prod.snd :=
  mem_attachLabels p 0 (t.map Prod.snd)

/-! ## C1 — result aggregation (`LCOE_Calculator.__postCalculation`,
`main.py` lines 4772-4804, initial output values lines 838-848)

`__init__` sets `outputsOfWP6['annualEnergyOfArray [Wh]'] = 0`.  At the
end of `__postCalculation` the fresh `arrayenergy` and `arrayopex` are
computed from the accumulated device loop sums, but the LCOE division
reads the *stored* output value, which is only overwritten afterwards
(line 4801). -/

/-- Inputs of the tail of `__postCalculation`:  the accumulated sums of
the device/component loop, the mission time in years, and the value of
`outputsOfWP6['annualEnergyOfArray [Wh]']` before this pass (`0`, set by
`__init__` line 848 and never written elsewhere before line 4801). -/
structure PostCalcInput where
  operationTimeYear : ℚ
  dummyEnergyAll : ℚ
  dummyOpexAll : ℚ
  storedAnnualEnergyOfArray : ℚ
deriving DecidableEq

/-- Result fields written by the tail of `__postCalculation`. -/
structure PostCalcOutput where
  annualEnergyOfArray : ℚ
  annualOpexOfArray : ℚ
  lcoeOfArray : ℚ
deriving DecidableEq

/-- `main.py` lines 4772-4804: compute `arrayenergy` and `arrayopex` from
the fresh sums, then `arraylcoe = arrayopex /
(outputsOfWP6['annualEnergyOfArray [Wh]'] / 1000.0)` unless
`np.isclose(arrayenergy, 0)`; round and store.  The divisor is the
*stored* output value, not the fresh `arrayenergy`; a zero divisor
raises `ZeroDivisionError`, modelled as `none`. -/
def postCalculationTail (s : PostCalcInput) : Option PostCalcOutput :=
  let arrayenergy : ℚ :=
    if s.operationTimeYear ≠ 0 then s.dummyEnergyAll / s.operationTimeYear else 0
  let arrayopex : ℚ :=
    if s.operationTimeYear ≠ 0 then s.dummyOpexAll / s.operationTimeYear else 0
  let lcoe? : Option ℚ :=
    if ¬ npIsCloseZero arrayenergy then
      let divisor := s.storedAnnualEnergyOfArray / 1000
      if divisor = 0 then none else some (arrayopex / divisor)
    else some 0
  lcoe?.map (fun lcoe =>
    { annualEnergyOfArray := pyRound arrayenergy 1
      annualOpexOfArray := pyRound arrayopex 100
      lcoeOfArray := pyRound lcoe 10000 })

/-- What the claim asks of the aggregation: LCOE = annual opex divided by
the annual array energy (in kWh) computed in the same pass, or `0` when
that energy is approximately `0`. -/
def claimedLCOE (s : PostCalcInput) : ℚ :=
  let arrayenergy : ℚ :=
    if s.operationTimeYear ≠ 0 then s.dummyEnergyAll / s.operationTimeYear else 0
  let arrayopex : ℚ :=
    if s.operationTimeYear ≠ 0 then s.dummyOpexAll / s.operationTimeYear else 0
  if ¬ npIsCloseZero arrayenergy then arrayopex / (arrayenergy / 1000) else 0

/-- C1.  On the first (and only) aggregation pass of a run, the stored
`annualEnergyOfArray [Wh]` output is still the `0` written by `__init__`,
so whenever the freshly computed annual array energy is not approximately
zero the division `arrayopex / (stored / 1000.0)` divides by zero and the
pass raises `ZeroDivisionError` instead of producing the claimed
`opex / energy` value.  Concrete pass: mission time 1 year, accumulated
device energy 1 000 000 Wh, accumulated opex 100 Euro.  The claim would
give LCOE = 0.1 Euro/kWh; the code crashes. -/
theorem C1_lcoe_divides_by_stale_energy :
    postCalculationTail ⟨1, 1000000, 100, 0⟩ = none ∧
    claimedLCOE ⟨1, 1000000, 100, 0⟩ = 1/10 := by
  constructor
  · simp [postCalculationTail, npIsCloseZero]
    norm_num
  · simp [claimedLCOE, npIsCloseZero]
    norm_num

/-! ## C2 — `LCOE_Calculator.executeCalc` (`main.py` lines 1335-1429)

`executeCalc` runs `__initCalc`; then, when
`integrateSelectPort or checkNoSolution` holds, runs `__initCheck` and
returns the outputs dictionary immediately — with the error table when
`errorFlag` was raised, with a `NoError` row otherwise — without ever
calling `__calcLCOE_OfArray`.  Only when both pre-flight switches are
off does it write the `NoError` row and run the simulation. -/

/-- The `error [-]` entry of the returned dictionary: either the filled
error table of `__initCheck`, or the `NoError` row of lines 1373-1390 /
1407-1424. -/
inductive ErrorEntry where
  | errorTable : ErrorEntry
  | noErrorRow : ErrorEntry
deriving DecidableEq

/-- The observable shape of `executeCalc`: which error entry the
returned dictionary carries, and whether `__calcLCOE_OfArray`
(the simulation producing the full results) was executed before
returning. -/
structure ExecCalcOutcome where
  errorEntry : ErrorEntry
  ranSimulation : Bool
deriving DecidableEq

/-- `main.py` lines 1345-1429.  `preflight` is
`integrateSelectPort == True or checkNoSolution == True`; `errorFound`
is `errorFlag` after `__initCheck`. -/
def executeCalc (preflight errorFound : Bool) : ExecCalcOutcome :=
  if preflight then
    if errorFound then
      { errorEntry := ErrorEntry.errorTable, ranSimulation := false }
    else
      { errorEntry := ErrorEntry.noErrorRow, ranSimulation := false }
  else
    { errorEntry := ErrorEntry.noErrorRow, ranSimulation := true }

/-- C2 counterexample.  With pre-flight checking enabled and no
infeasibility found, `executeCalc` returns at line 1392 without calling
`__calcLCOE_OfArray`: the returned dictionary does *not* contain the
full simulation results, contrary to the claim. -/
theorem C2_preflight_returns_no_results :
    (executeCalc true false).ranSimulation = false ∧
    (executeCalc true false).errorEntry = ErrorEntry.noErrorRow := by
  decide

/-- C2 amended.  The caller always receives exactly one error entry —
the error table precisely when pre-flight checking is enabled and found
an infeasibility, the `NoError` row otherwise — and receives the full
simulation results precisely when pre-flight checking is disabled;
a pre-flight run that finds no infeasibility returns only the `NoError`
record, with the simulation never run. -/
theorem C2_exec_outcome_shape (preflight errorFound : Bool) :
    ((executeCalc preflight errorFound).errorEntry = ErrorEntry.errorTable ↔
      (preflight = true ∧ errorFound = true)) ∧
    ((executeCalc preflight errorFound).ranSimulation = true ↔ preflight = false) := by
  cases preflight <;> cases errorFound <;> decide

/-! ## C3 — coordination of the Corrective table against the Condition
table (`LCOE_Calculator.__initCalc`, `main.py` lines 1672-1758) -/

/-- A row of `UnCoMa_eventsTable` (columns of
`__UnCoMa_eventsTableKeys`, lines 735-744). -/
structure UnCoMaRow where
  failureRate : ℚ
  repairActionEvents : ℚ
  failureEvents : ℚ
  belongsTo : String
  componentType : String
  componentSubType : String
  componentID : String
  fmID : String
  indexFM : Nat
  raID : String
deriving DecidableEq

/-- A row of `CoBaMa_eventsTable` (values written at lines 1622-1636). -/
structure CoBaMaRow where
  startActionDate : ℚ
  endActionDate : ℚ
  currentStartDate : ℚ
  currentEndDate : ℚ
  currentAlarmDate : ℚ
  belongsTo : String
  componentType : String
  componentSubType : String
  componentID : String
  fmID : String
  indexFM : Nat
  raID : String
  threshold : ℚ
  failureRate : ℚ
  flagCaBaMa : Bool
deriving DecidableEq

/-- The row filter of lines 1694-1701: a Corrective row matches a
Condition row when `belongsTo`, `ComponentType`, `ComponentSubType`,
`ComponentID`, `indexFM`, `FM_ID` and `RA_ID` all agree. -/
def keyMatch (u : UnCoMaRow) (c : CoBaMaRow) : Bool :=
  u.belongsTo == c.belongsTo &&
  u.componentType == c.componentType &&
  u.componentSubType == c.componentSubType &&
  u.componentID == c.componentID &&
  u.indexFM == c.indexFM &&
  u.fmID == c.fmID &&
  u.raID == c.raID

/-- Lines 1680-1704: for each Condition row in turn, drop every matching
row from the Corrective table (`tempdf = …loc[filter]`,
`drop(tempdf.index, inplace=True)`). -/
def dropCoBaMaMatches (uncoma : PTable UnCoMaRow) (cobama : List CoBaMaRow) :
    PTable UnCoMaRow :=
  cobama.foldl (fun tab c => tab.filter (fun lu => !(keyMatch lu.2 c))) uncoma

/-- The delay columns of a `Repair_Action` record used at lines
1726-1733. -/
structure RepairActionInfo where
  delay_spare : ℚ
  delay_crew : ℚ
  delay_organisation : ℚ
deriving DecidableEq

/-- The delay columns of an `Inspection` record used at lines
1740-1744. -/
structure InspectionInfo where
  delay_crew : ℚ
  delay_organisation : ℚ
deriving DecidableEq

/-- Lines 1720-1746: the request-delay hours for a Corrective row —
`max(delay_spare, delay_crew + delay_organisation)` from the repair
record, or `max(0, delay_crew + delay_organisation)` from the inspection
record when the failure mode id contains `Insp`. -/
def shiftHoursFor (repairs : String → RepairActionInfo)
    (inspections : String → InspectionInfo) (u : UnCoMaRow) : ℚ :=
  let compIDWithIndex := u.componentID ++ "_" ++ toString u.indexFM
  if !(pyIn "Insp" u.fmID) then
    let r := repairs compIDWithIndex
    max r.delay_spare (r.delay_crew + r.delay_organisation)
  else
    let i := inspections compIDWithIndex
    max 0 (i.delay_crew + i.delay_organisation)

/-- `main.py` lines 1672-1758, the Corrective part of `__initCalc`
coordination: when corrective maintenance is on and the Corrective table
is non-empty, (1) if condition-based maintenance is on and produced
rows, drop every Corrective row matching a Condition row and reset the
index; (2) shift every remaining row's `repairActionEvents` to
`failureEvents + delay`; (3) re-sort by `repairActionEvents`
(`__UnCoMa_eventsTableKeys[1]`) and reset the index. -/
def coordCorrective (correctiveOn conditionOn : Bool)
    (uncoma : PTable UnCoMaRow) (cobama : List CoBaMaRow)
    (repairs : String → RepairActionInfo)
    (inspections : String → InspectionInfo) : PTable UnCoMaRow :=
  if correctiveOn && decide (0 < uncoma.length) then
    let t1 :=
      if conditionOn && decide (0 < cobama.length) then
        resetIndex (dropCoBaMaMatches uncoma cobama)
      else uncoma
    let t2 := t1.map (fun lu =>
      (lu.1, { lu.2 with repairActionEvents :=
                  lu.2.failureEvents +
                    shiftHoursFor repairs inspections lu.2 * 3600 }))
    resetIndex (sortByKey (fun lu => lu.2.repairActionEvents) t2)
  else uncoma

theorem mem_dropCoBaMaMatches (uncoma : PTable UnCoMaRow)
    (cobama : List CoBaMaRow) (lu : Nat × UnCoMaRow)
    (h : lu ∈ dropCoBaMaMatches uncoma cobama) :
    lu ∈ uncoma ∧ ∀ c ∈ cobama, keyMatch lu.2 c = false := by
  induction cobama generalizing uncoma with
  | nil =>
      exact ⟨h, by simp⟩
  | cons c cs ih =>
      have h2 := ih (uncoma.filter (fun lu => !(keyMatch lu.2 c))) h
      rcases h2 with ⟨hmem, hall⟩
      have := List.mem_filter.mp hmem
      refine ⟨this.1, ?_⟩
      intro c' hc'
      rcases List.mem_cons.mp hc' with rfl | hc'
      · have hb := this.2
        simpa using hb
      · exact hall c' hc'

theorem keyMatch_update_repairActionEvents (u : UnCoMaRow) (c : CoBaMaRow)
    (v : ℚ) : keyMatch { u with repairActionEvents := v } c = keyMatch u c :=
  rfl

/-- C3.  After the coordination step of `__initCalc` with corrective and
condition-based maintenance enabled and both tables non-empty, no
Corrective row matching the (belongsTo, type, subtype, id, failure-mode
index, FM id, RA id) key of any Condition row remains, and the
Corrective table's index is the fresh `0, 1, 2, …`. -/
theorem C3_coordination_removes_condition_keys
    (uncoma : PTable UnCoMaRow) (cobama : List CoBaMaRow)
    (repairs : String → RepairActionInfo)
    (inspections : String → InspectionInfo)
    (hu : 0 < uncoma.length) (hc : 0 < cobama.length) :
    (∀ c ∈ cobama,
      ∀ lu ∈ coordCorrective true true uncoma cobama repairs inspections,
        keyMatch lu.2 c = false) ∧
    (coordCorrective true true uncoma cobama repairs inspections).map
        Prod.fst =
      List.range
        (coordCorrective true true uncoma cobama repairs inspections).length
    := by
  have hcond : (true && decide (0 < uncoma.length)) = true := by
    simp [hu]
  have hcond2 : (true && decide (0 < cobama.length)) = true := by
    simp [hc]
  constructor
  · intro c hcin lu hlu
    rw [coordCorrective] at hlu
    rw [hcond] at hlu
    simp only [if_pos] at hlu
    rw [hcond2] at hlu
    simp only [if_pos] at hlu
    have h1 := mem_resetIndex _ _ hlu
    rcases List.mem_map.mp h1 with ⟨p, hp, hp2⟩
    have h2 := (mem_sortByKey _ _ _).mp hp
    rcases List.mem_map.mp h2 with ⟨q, hq, hq2⟩
    have h3 := mem_resetIndex _ _ hq
    rcases List.mem_map.mp h3 with ⟨r, hr, hr2⟩
    have h4 := mem_dropCoBaMaMatches uncoma cobama r hr
    have h5 := h4.2 c hcin
    have : lu.2 = { r.2 with repairActionEvents :=
        r.2.failureEvents + shiftHoursFor repairs inspections r.2 * 3600 } := by
      rw [← hp2, ← hq2]
      simp [hr2]
    rw [this, keyMatch_update_repairActionEvents]
    exact h5
  · rw [coordCorrective, hcond]
    simp only [if_pos]
    rw [resetIndex_length]
    exact resetIndex_labels _

/-- A concrete two-row Corrective table (labels 0 and 1) whose first row
matches the Condition row of `c3cobama`. -/
def c3uncoma : PTable UnCoMaRow :=
  [(0, { failureRate := 1, repairActionEvents := 100,
         failureEvents := 50, belongsTo := "device001",
         componentType := "device001", componentSubType := "Hydrodynamic",
         componentID := "device001", fmID := "MoS1", indexFM := 1,
         raID := "RtP1" }),
   (1, { failureRate := 1, repairActionEvents := 200,
         failureEvents := 150, belongsTo := "Array",
         componentType := "Export Cable001", componentSubType := "Underwater",
         componentID := "Export Cable001", fmID := "MoS2", indexFM := 1,
         raID := "RtP2" })]

/-- A concrete one-row Condition table. -/
def c3cobama : List CoBaMaRow :=
  [{ startActionDate := 0, endActionDate := 10, currentStartDate := 0,
     currentEndDate := 10, currentAlarmDate := 5, belongsTo := "device001",
     componentType := "device001", componentSubType := "Hydrodynamic",
     componentID := "device001", fmID := "MoS1", indexFM := 1,
     raID := "RtP1", threshold := 1/2, failureRate := 1,
     flagCaBaMa := false }]

/-- Constant repair delays for the witness. -/
def c3repairs : String → RepairActionInfo := fun _ => ⟨0, 0, 0⟩

/-- Constant inspection delays for the witness. -/
def c3inspections : String → InspectionInfo := fun _ => ⟨0, 0⟩

/-- C3 witness: coordination of the concrete tables removes the matching
Corrective row and relabels the table from 0. -/
theorem C3_coordination_removes_condition_keys_witness :
    0 < c3uncoma.length ∧ 0 < c3cobama.length ∧
    ((∀ c ∈ c3cobama,
        ∀ lu ∈ coordCorrective true true c3uncoma c3cobama c3repairs
            c3inspections,
          keyMatch lu.2 c = false) ∧
      (coordCorrective true true c3uncoma c3cobama c3repairs
          c3inspections).map Prod.fst =
        List.range
          (coordCorrective true true c3uncoma c3cobama c3repairs
              c3inspections).length) :=
  ⟨by decide, by decide,
    C3_coordination_removes_condition_keys c3uncoma c3cobama c3repairs
      c3inspections (by decide) (by decide)⟩

/-! ## C4 and C6 — the Corrective-track device bookkeeping
(`LCOE_Calculator.__get_lcoe_unplanned`, `main.py` lines 4099-4281)

The `arrayDict` entry of a component or device, restricted to the
fields touched by the Corrective track. -/

/-- One value of `self.__arrayDict`: the `UnCoMaNoWeatherWindow` flag,
the `Breakdown` device list, the `UnCoMaOpEvents*` ledgers and the
`UnCoMaCost*` ledgers. -/
structure ArrayEnt where
  unWeather : Bool
  breakdown : List String
  opEvents : List ℚ
  opEventsDuration : List ℚ
  opEventsIndexFM : List Nat
  opEventsCausedBy : List String
  costLogistic : List ℚ
  costOM : List ℚ
deriving DecidableEq, Inhabited

/-- `self.__arrayDict` with its key order. -/
abbrev ArrayDict := List (String × ArrayEnt)

/-- Dictionary read `self.__arrayDict[k]`. -/
def getEntry (arr : ArrayDict) (k : String) : ArrayEnt :=
  ((arr.find? (fun p => p.1 == k)).map Prod.snd).getD default

/-- In-place mutation of the entry at key `k`. -/
def updEntry (arr : ArrayDict) (k : String) (f : ArrayEnt → ArrayEnt) :
    ArrayDict :=
  arr.map (fun p => if p.1 == k then (p.1, f p.2) else p)

/-- The per-action constants read by the device loop. -/
structure UnCtx where
  ignoreWeatherWindow : Bool
  componentID : String
  componentType : String
  failureDate : ℚ
  totalDownTimeHours : ℚ
  indexFM : Nat

/-- The mutable state threaded through the device loop: the array
dictionary, `self.__NrOfTurnOutDevices`, and the accumulating
`downtimeDeviceList`. -/
structure LoopState where
  arr : ArrayDict
  nrOfTurnOutDevices : Nat
  downtimeDeviceList : List String
deriving DecidableEq

/-- One iteration of the loop at `main.py` lines 4212-4240.  The guard
(lines 4214-4218) skips every key that is not a device key whose
`UnCoMaNoWeatherWindow` flag is *already set* and that lies in the
acting component's breakdown set.  A processed key is appended to
`downtimeDeviceList` and its four `UnCoMaOpEvents*` ledgers; under the
ignore-weather-window policy its flag is (re)set and the turned-out
counter incremented; for a non-device acting component zero cost entries
are appended and the acting component's own flag is set (line 4240). -/
def saveDeviceStep (ctx : UnCtx) (breakdown : List String) (st : LoopState)
    (k : String) : LoopState :=
  let ent := getEntry st.arr k
  if !(pyIn "device" k && ent.unWeather &&
        (pyElem "All" breakdown || pyElem k breakdown)) then
    st
  else
    let st1 :=
      if ctx.ignoreWeatherWindow then
        { st with
            arr := updEntry st.arr k (fun e => { e with unWeather := true })
            nrOfTurnOutDevices := st.nrOfTurnOutDevices + 1 }
      else st
    let st2 :=
      { st1 with
          downtimeDeviceList := st1.downtimeDeviceList ++ [k]
          arr := updEntry st1.arr k (fun e =>
            { e with
                opEvents := e.opEvents ++ [ctx.failureDate]
                opEventsDuration :=
                  e.opEventsDuration ++ [ctx.totalDownTimeHours]
                opEventsIndexFM := e.opEventsIndexFM ++ [ctx.indexFM]
                opEventsCausedBy :=
                  e.opEventsCausedBy ++ [ctx.componentID] }) }
    if pyIn "device" ctx.componentType then st2
    else
      { st2 with
          arr := updEntry
            (updEntry st2.arr k (fun e =>
              { e with costLogistic := e.costLogistic ++ [0]
                       costOM := e.costOM ++ [0] }))
            ctx.componentID (fun e => { e with unWeather := true }) }

/-- `main.py` lines 4207-4240: read the acting component's breakdown
set once, then run the device loop over the dictionary's keys. -/
def saveDowntimeLoop (ctx : UnCtx) (arr : ArrayDict) (nr : Nat) :
    LoopState :=
  let breakdown := (getEntry arr ctx.componentID).breakdown
  (arr.map Prod.fst).foldl (saveDeviceStep ctx breakdown)
    { arr := arr, nrOfTurnOutDevices := nr, downtimeDeviceList := [] }

/-- `main.py` lines 4193-4205: append the rounded logistic and O&M cost
of the action to the acting component's ledgers (its `ComponentID` entry
when it belongs to the Array, its `ComponentType` entry when the type
is a device). -/
def saveCostOfOperation (arr : ArrayDict)
    (belongsTo componentID componentType : String)
    (logisticcost omcost : ℚ) : ArrayDict :=
  if belongsTo == "Array" then
    updEntry arr componentID (fun e =>
      { e with costLogistic := e.costLogistic ++ [logisticcost]
               costOM := e.costOM ++ [omcost] })
  else if pyIn "device" componentType then
    updEntry arr componentType (fun e =>
      { e with costLogistic := e.costLogistic ++ [logisticcost]
               costOM := e.costOM ++ [omcost] })
  else arr

/-- The `SolutionFound` tail of `__get_lcoe_unplanned` restricted to the
array-state bookkeeping (`main.py` lines 4180-4246): the total downtime
is `(endOpDate - failureDate) // 3600` hours, the action's costs go to
the acting component's ledger, and the device loop runs with the
ignore-weather-window policy flag as found in the control parameters. -/
def unComaSolutionFoundSave (ignore : Bool) (endOpDate failureDate : ℚ)
    (optLogisticCostValue omCostValue : ℚ)
    (belongsTo componentID componentType : String) (indexFM : Nat)
    (arr : ArrayDict) (nr : Nat) : LoopState :=
  let totalDownTimeHours := floorDivHours (endOpDate - failureDate)
  let logisticcost := pyRound optLogisticCostValue 100
  let omcost := pyRound omCostValue 100
  let arr1 := saveCostOfOperation arr belongsTo componentID componentType
    logisticcost omcost
  saveDowntimeLoop
    { ignoreWeatherWindow := ignore, componentID := componentID,
      componentType := componentType, failureDate := failureDate,
      totalDownTimeHours := totalDownTimeHours, indexFM := indexFM }
    arr1 nr

/-- An array dictionary for a fresh run: one device with a clear
weather-block flag and empty ledgers, and one array-level component
whose breakdown set covers every device. -/
def c4arr : ArrayDict :=
  [("device001",
    { unWeather := false, breakdown := [], opEvents := [],
      opEventsDuration := [], opEventsIndexFM := [],
      opEventsCausedBy := [], costLogistic := [], costOM := [] }),
   ("Export Cable001",
    { unWeather := false, breakdown := ["All"], opEvents := [],
      opEventsDuration := [], opEventsIndexFM := [],
      opEventsCausedBy := [], costLogistic := [], costOM := [] })]

/-- C4.  A `SolutionFound` corrective action of the array-level
component `Export Cable001` (breakdown set `All`, so `device001` is
affected) on a fresh state, where every weather-block flag is still
clear: the guard at lines 4214-4218 admits only device keys whose
`UnCoMaNoWeatherWindow` flag is *already set*, so `device001` receives
no op-event entry at all and the action's `downtimeDeviceList` stays
empty — against the claim that every breakdown-set device receives one
entry of `(endOpDate - failureDate) // 3600` hours regardless of its
flag.  (The cost ledgers of the acting component are still written,
showing the action itself was realized.) -/
theorem C4_device_entries_gated_on_weather_flag :
    (unComaSolutionFoundSave false 400000 40000 500 300 "Array"
        "Export Cable001" "Export Cable001" 1 c4arr 0).downtimeDeviceList
        = [] ∧
    (getEntry (unComaSolutionFoundSave false 400000 40000 500 300 "Array"
        "Export Cable001" "Export Cable001" 1 c4arr 0).arr
        "device001").opEventsDuration = [] ∧
    (getEntry (unComaSolutionFoundSave false 400000 40000 500 300 "Array"
        "Export Cable001" "Export Cable001" 1 c4arr 0).arr
        "Export Cable001").costLogistic = [500] ∧
    floorDivHours (400000 - 40000) = 100 ∧
    (getEntry c4arr "Export Cable001").breakdown = ["All"] := by
  constructor
  · simp [unComaSolutionFoundSave, saveDowntimeLoop, saveDeviceStep,
          saveCostOfOperation, getEntry, updEntry, c4arr, pyIn, pyElem,
          charsContain, charsLead, floorDivHours, pyRound]
  constructor
  · simp [unComaSolutionFoundSave, saveDowntimeLoop, saveDeviceStep,
          saveCostOfOperation, getEntry, updEntry, c4arr, pyIn, pyElem,
          charsContain, charsLead, floorDivHours, pyRound]
  constructor
  · simp [unComaSolutionFoundSave, saveDowntimeLoop, saveDeviceStep,
          saveCostOfOperation, getEntry, updEntry, c4arr, pyIn, pyElem,
          charsContain, charsLead, floorDivHours, pyRound]
    norm_num
  constructor
  · simp [floorDivHours]
    norm_num
  · simp [c4arr, getEntry]

/-- Outcome of a Python code path that may raise: `ok` is a normal
return, `exn` an uncaught exception, carrying the state mutated up to
the raise. -/
inductive PyResult (α : Type) where
  | ok : α → PyResult α
  | exn : α → PyResult α
deriving DecidableEq

/-- Observable effects of one `NoWeatherWindowFound` corrective event. -/
structure UnWeatherOutcome where
  arr : ArrayDict
  nrOfTurnOutDevices : Nat
  downtimeDeviceList : List String
  totalDownTimeHours : ℚ
  outputRowWritten : Bool
deriving DecidableEq

/-- The `NoWeatherWindowFound` path of `__get_lcoe_unplanned`
(`main.py` lines 4110-4281).  Without the ignore-weather-window flag the
event returns at lines 4128-4131 with no state change (the row index was
already advanced at line 4088).  With the flag, costs are zero, downtime
runs from the failure date to the operation end (lines 4118-4124), the
zero costs are appended to the acting component's ledger and the device
loop runs; then line 4252 reads the local `optimal`, which is only
assigned in the `SolutionFound` branch (line 4135), so the step raises
`UnboundLocalError` before the output row of lines 4257-4281 is
written. -/
def unComaNoWeatherWindow (ignore : Bool)
    (endOperationDate failureEvents : ℚ)
    (belongsTo componentID componentType : String) (indexFM : Nat)
    (arr : ArrayDict) (nr : Nat) : PyResult UnWeatherOutcome :=
  if ignore then
    let totalDownTimeHours := floorDivHours (endOperationDate - failureEvents)
    let logisticcost := pyRound 0 100
    let omcost := pyRound 0 100
    let arr1 := saveCostOfOperation arr belongsTo componentID componentType
      logisticcost omcost
    let st := saveDowntimeLoop
      { ignoreWeatherWindow := ignore, componentID := componentID,
        componentType := componentType, failureDate := failureEvents,
        totalDownTimeHours := totalDownTimeHours, indexFM := indexFM }
      arr1 nr
    PyResult.exn
      { arr := st.arr, nrOfTurnOutDevices := st.nrOfTurnOutDevices,
        downtimeDeviceList := st.downtimeDeviceList,
        totalDownTimeHours := totalDownTimeHours,
        outputRowWritten := false }
  else
    PyResult.ok
      { arr := arr, nrOfTurnOutDevices := nr, downtimeDeviceList := [],
        totalDownTimeHours := 0, outputRowWritten := false }

/-- C6.  `NoWeatherWindowFound` on a fresh state (flags clear), acting
component `Export Cable001` with breakdown `All` and `device001`
affected.  With the ignore-weather-window flag set, the code does reach
the horizon-downtime computation with zero costs, but (a) the device
loop admits only already-flagged devices, so `device001` is neither
flagged nor counted as turned out, and (b) the step raises on the
unbound `optimal` local before writing its output row — against the
claim that every breakdown-set device is flagged, the counter is
incremented per device, and the step finishes normally.  Without the
flag the event is indeed dropped with no side effects. -/
theorem C6_ignore_weather_path_flags_nothing_and_raises :
    unComaNoWeatherWindow true 400000 40000 "Array" "Export Cable001"
        "Export Cable001" 1 c4arr 0 =
      PyResult.exn
        { arr :=
            [("device001",
              { unWeather := false, breakdown := [], opEvents := [],
                opEventsDuration := [], opEventsIndexFM := [],
                opEventsCausedBy := [], costLogistic := [], costOM := [] }),
             ("Export Cable001",
              { unWeather := false, breakdown := ["All"], opEvents := [],
                opEventsDuration := [], opEventsIndexFM := [],
                opEventsCausedBy := [], costLogistic := [0],
                costOM := [0] })],
          nrOfTurnOutDevices := 0, downtimeDeviceList := [],
          totalDownTimeHours := 100, outputRowWritten := false } ∧
    unComaNoWeatherWindow false 400000 40000 "Array" "Export Cable001"
        "Export Cable001" 1 c4arr 0 =
      PyResult.ok
        { arr := c4arr, nrOfTurnOutDevices := 0, downtimeDeviceList := [],
          totalDownTimeHours := 0, outputRowWritten := false } := by
  constructor
  · simp [unComaNoWeatherWindow, saveDowntimeLoop, saveDeviceStep,
          saveCostOfOperation, getEntry, updEntry, c4arr, pyIn, pyElem,
          charsContain, charsLead, floorDivHours, pyRound]
    norm_num
  · simp [unComaNoWeatherWindow]

/-! ## C5 — `LCOE_Calculator.__updatePoissonEvents`
(`main.py` lines 4556-4619, called from line 4246 right after a
Corrective action is realized, when `actIdxOfUnCoMa` has already been
advanced past the realized row at line 4088) -/

/-- `main.py` lines 4556-4619.  The function reads `belongsTo` and
`ComponentID` from the row with *label 0* (lines 4562-4563), not from
the realized action's row.  If that row belongs to the Array and its
breakdown is `All`, every row with label in
`range(actIdxOfUnCoMa + 1, len)` is shifted forward by the realized sea
time; otherwise only the rows in that range matching label-0's component
and breakdown.  The table is then re-sorted by `repairActionEvents`
without an index reset.  `none` models the `KeyError` on an empty
table. -/
def updatePoissonEvents (t : PTable UnCoMaRow) (actIdxOfUnCoMa : Nat)
    (totalSeaTimeHour : ℚ) (breakdownOf : String → List String) :
    Option (PTable UnCoMaRow) :=
  (lookupLabel t 0).map (fun r0 =>
    let n := t.length
    let shiftRow := fun (r : UnCoMaRow) =>
      { r with
          failureEvents := r.failureEvents + totalSeaTimeHour * 3600
          repairActionEvents :=
            r.repairActionEvents + totalSeaTimeHour * 3600 }
    let t1 :=
      if r0.belongsTo == "Array" &&
          pyElem "All" (breakdownOf r0.componentID) then
        t.map (fun p =>
          if actIdxOfUnCoMa + 1 ≤ p.1 && p.1 < n then (p.1, shiftRow p.2)
          else p)
      else
        t.map (fun p =>
          if actIdxOfUnCoMa + 1 ≤ p.1 && p.1 < n &&
              (p.2.componentID == r0.componentID &&
                pyElem p.2.belongsTo (breakdownOf r0.componentID)) then
            (p.1, shiftRow p.2)
          else p)
    sortByKey (fun p => p.2.repairActionEvents) t1)

/-- A Corrective table right after realizing the action at label 1
(component `B`), so `actIdxOfUnCoMa = 2`: label 0 is an earlier event of
the array-level component `A`, labels 2 and 3 are future events of `B`
and `C`. -/
def c5table : PTable UnCoMaRow :=
  [(0, { failureRate := 1, repairActionEvents := 1100,
         failureEvents := 1000, belongsTo := "Array",
         componentType := "Export Cable001", componentSubType := "",
         componentID := "A", fmID := "MoS1", indexFM := 1,
         raID := "RtP1" }),
   (1, { failureRate := 1, repairActionEvents := 2100,
         failureEvents := 2000, belongsTo := "device001",
         componentType := "device001", componentSubType := "",
         componentID := "B", fmID := "MoS1", indexFM := 1,
         raID := "RtP1" }),
   (2, { failureRate := 1, repairActionEvents := 3100,
         failureEvents := 3000, belongsTo := "device001",
         componentType := "device001", componentSubType := "",
         componentID := "B", fmID := "MoS1", indexFM := 1,
         raID := "RtP1" }),
   (3, { failureRate := 1, repairActionEvents := 4100,
         failureEvents := 4000, belongsTo := "device002",
         componentType := "device002", componentSubType := "",
         componentID := "C", fmID := "MoS1", indexFM := 1,
         raID := "RtP1" })]

/-- Breakdown sets for the components of `c5table`. -/
def c5breakdown : String → List String :=
  fun k =>
    if k == "A" then ["All"]
    else if k == "B" then ["device001"]
    else if k == "C" then ["device002"]
    else []

/-- C5.  After realizing the corrective action at label 1 (component
`B`, sea time 1 h), `__updatePoissonEvents` keys its shift on the row
with label 0 — here the array-level component `A` with breakdown `All` —
and only shifts labels from `actIdxOfUnCoMa + 1 = 3` on: the remaining
future event of the realized component `B` (label 2) keeps its dates,
while the unrelated component `C`'s event (label 3) is shifted by the
sea time — the exact opposite of the claim, which would shift label 2
by 1 h and leave label 3 unchanged. -/
theorem C5_shift_keyed_on_row_zero_not_realized_component :
    (updatePoissonEvents c5table 2 1 c5breakdown).bind
        (fun r => lookupLabel r 2) =
      some { failureRate := 1, repairActionEvents := 3100,
             failureEvents := 3000, belongsTo := "device001",
             componentType := "device001", componentSubType := "",
             componentID := "B", fmID := "MoS1", indexFM := 1,
             raID := "RtP1" } ∧
    (updatePoissonEvents c5table 2 1 c5breakdown).bind
        (fun r => lookupLabel r 3) =
      some { failureRate := 1, repairActionEvents := 7700,
             failureEvents := 7600, belongsTo := "device002",
             componentType := "device002", componentSubType := "",
             componentID := "C", fmID := "MoS1", indexFM := 1,
             raID := "RtP1" } := by
  constructor
  · norm_num [updatePoissonEvents, c5table, c5breakdown, lookupLabel,
              sortByKey, insertByKey, pyElem]
  · norm_num [updatePoissonEvents, c5table, c5breakdown, lookupLabel,
              sortByKey, insertByKey, pyElem]

/-! ## C7 — calendar-track blocks
(`LCOE_Calculator.__get_lcoe_calendar`, `main.py` lines 3292-3315 and
3603-3633; `CaBaMa_nrOfMaxActions = 10`, line 1093) -/

/-- `main.py` lines 3292-3307: split a same-date group of `tableLen`
actions into blocks.  `divmod(tableLen, cap)`; with a positive quotient
the loop appends `cap` per full block and, on the last pass, also the
remainder — even when the remainder is `0`. -/
def blockNumberList (tableLen cap : Nat) : List Nat :=
  let q := tableLen / cap
  let r := tableLen % cap
  if 0 < q then
    (List.range q).foldl
      (fun acc iCnt =>
        let acc1 := acc ++ [cap]
        if iCnt == q - 1 then acc1 ++ [r] else acc1)
      []
  else [r]

/-- `main.py` lines 3309-3315: for each entry of `blockNumberList`, the
loop first reads `dummyCaBaMaTable.currentStartActionDate[bidx]` with
`bidx = iCnt * cap`; the group table carries labels
`0 … tableLen - 1`, so a `bidx` beyond that raises `KeyError` (`none`).
On success the number of processed blocks is returned. -/
def blockHeadAccess (tableLen cap : Nat) : List Nat → Nat → Option Nat
  | [], _ => some 0
  | _ :: rest, iCnt =>
      if iCnt * cap < tableLen then
        (blockHeadAccess tableLen cap rest (iCnt + 1)).map (fun n => n + 1)
      else none

/-- Walk all blocks of a same-date group of `tableLen` calendar actions
under block cap `cap`. -/
def processCaBaMaGroup (tableLen cap : Nat) : Option Nat :=
  blockHeadAccess tableLen cap (blockNumberList tableLen cap) 0

/-- The four columns of a `CaBaMa_eventsTable` row read or written by
the block-result loop. -/
structure CaBaMaRowState where
  currentStartActionDate : ℚ
  currentEndActionDate : ℚ
  logisticCost : ℚ
  omCost : ℚ
deriving DecidableEq

/-- `main.py` lines 3603-3633: for a realized block of `blockNumber`
actions ending at rows
`actIdxOfCaBaMa - blockNumber … actIdxOfCaBaMa - 1`, walk the rows with
an accumulating `shiftDate`: each row's `currentEndActionDate` becomes
`shiftDate + seaTime/blockNumber` hours, the next row's
`currentStartActionDate` is set to the same date, and each row records
`logisticCost = round(optLogisticCostValue / blockNumber, 2)` and
`omCost = round(omCostValue, 2)` — the O&M cost is *not* divided by the
block size. -/
def writeBlockResults (t : PTable CaBaMaRowState) (actIdxOfCaBaMa : Nat)
    (blockNumber : Nat)
    (currentStartActionDate totalSeaTimeHour : ℚ)
    (optLogisticCostValue omCostValue : ℚ) : PTable CaBaMaRowState :=
  let logisticcost := pyRound (optLogisticCostValue / (blockNumber : ℚ)) 100
  let omcost := pyRound omCostValue 100
  ((List.range blockNumber).foldl
    (fun st iCnt1 =>
      let tab := st.1
      let shiftDate0 := st.2
      let blockshift := totalSeaTimeHour / (blockNumber : ℚ)
      let tidx := actIdxOfCaBaMa - blockNumber + iCnt1
      let shiftDate := shiftDate0 + blockshift * 3600
      let tab1 := updateLabel tab tidx
        (fun r => { r with currentEndActionDate := shiftDate })
      let tab2 :=
        if iCnt1 < blockNumber - 1 then
          updateLabel tab1 (tidx + 1)
            (fun r => { r with currentStartActionDate := shiftDate })
        else tab1
      let tab3 := updateLabel tab2 tidx
        (fun r => { r with logisticCost := logisticcost, omCost := omcost })
      (tab3, shiftDate))
    (t, currentStartActionDate)).1

/-- A same-date block of two calendar rows, labels 0 and 1, before the
block results are written (`actIdxOfCaBaMa` already advanced to 2). -/
def c7table : PTable CaBaMaRowState :=
  [(0, { currentStartActionDate := 0, currentEndActionDate := 0,
         logisticCost := 0, omCost := 0 }),
   (1, { currentStartActionDate := 0, currentEndActionDate := 0,
         logisticCost := 0, omCost := 0 })]

/-- C7.  (a) A same-date group whose size is an exact multiple of the
cap — here exactly 10 actions with the default cap 10 — produces the
block list `[10, 0]`, and processing the trailing empty block reads row
label `1 * 10 = 10` of the 10-row group table, raising `KeyError`
instead of completing (a 25-action group, by contrast, yields
`[10, 10, 5]` and completes all three blocks).  (b) Within a realized
block of size 2 with logistic cost 100 and O&M cost 50, each row
records `logisticCost = 100/2 = 50` but the *full* `omCost = 50`, so a
row's recorded total is 100 and not the claimed
`(100 + 50) / 2 = 75`. -/
theorem C7_block_cap_multiple_raises_and_om_cost_not_divided :
    blockNumberList 10 10 = [10, 0] ∧
    processCaBaMaGroup 10 10 = none ∧
    blockNumberList 25 10 = [10, 10, 5] ∧
    processCaBaMaGroup 25 10 = some 3 ∧
    writeBlockResults c7table 2 2 0 2 100 50 =
      [(0, { currentStartActionDate := 0, currentEndActionDate := 3600,
             logisticCost := 50, omCost := 50 }),
       (1, { currentStartActionDate := 3600,
             currentEndActionDate := 7200,
             logisticCost := 50, omCost := 50 })] := by
  refine ⟨by decide, by decide, by decide, by decide, ?_⟩
  norm_num [writeBlockResults, c7table, updateLabel, pyRound,
            List.range, List.range.loop]

/-! ## C8 — the Condition-track continuation row
(`LCOE_Calculator.__get_lcoe_condition`, `main.py` lines 3095-3146) -/

/-- Lines 3100-3106: the first pending failure draw strictly after both
the new start date and the current end date; `none` models the
`RuntimeError` raised at lines 3108-3111 when no draw qualifies. -/
def findDrawIdx (newStart currentEnd : ℚ) : List ℚ → Nat → Option Nat
  | [], _ => none
  | s :: ss, i =>
      if newStart < s ∧ currentEnd < s then some i
      else findDrawIdx newStart currentEnd ss (i + 1)

/-- `main.py` lines 3095-3146: after a Condition action is realized (or
deferred), copy the current row (position `actIdxOfCoBaMa`; the table
has just been relabelled `0 … n-1`, so positions and labels agree),
append the copy at label `lidx = len(table)`, compute the continuation
dates from the chosen draw and the row's threshold, write them into the
row at label `pidx = lidx - 1`, then sort by `currentAlarmDate` and
reset the index. -/
def coBaMaContinuation (t : PTable CoBaMaRow) (actIdxOfCoBaMa : Nat)
    (series : List ℚ) (newLineCurrentStartDate : ℚ) :
    Option (PTable CoBaMaRow) :=
  (lookupLabel t actIdxOfCoBaMa).bind (fun current =>
    (findDrawIdx newLineCurrentStartDate current.currentEndDate series
        0).map (fun index =>
      let lidx := t.length
      let pidx := lidx - 1
      let t1 := t ++ [(lidx, current)]
      let newLineCurrentEndDate := series.getD index 0
      let hours := (newLineCurrentEndDate - newLineCurrentStartDate) / 3600
      let shift := hours * (1 - current.threshold)
      let newLineCurrentAlarmDate :=
        newLineCurrentStartDate + shift * 3600
      resetIndex (sortByKey (fun p => p.2.currentAlarmDate)
        (updateLabel t1 pidx (fun r =>
          { r with currentStartDate := newLineCurrentStartDate
                   currentEndDate := newLineCurrentEndDate
                   currentAlarmDate := newLineCurrentAlarmDate })))))

/-- The realized Condition row (label 0, component `X`). -/
def c8rowX : CoBaMaRow :=
  { startActionDate := 0, endActionDate := 0, currentStartDate := 0,
    currentEndDate := 7200, currentAlarmDate := 3600,
    belongsTo := "device001", componentType := "device001",
    componentSubType := "", componentID := "X", fmID := "MoS1",
    indexFM := 1, raID := "RtP1", threshold := 1/2, failureRate := 1,
    flagCaBaMa := false }

/-- An unrelated Condition row of component `Y` (label 1, the last row
of the table). -/
def c8rowY : CoBaMaRow :=
  { startActionDate := 0, endActionDate := 0, currentStartDate := 100000,
    currentEndDate := 200000, currentAlarmDate := 150000,
    belongsTo := "device002", componentType := "device002",
    componentSubType := "", componentID := "Y", fmID := "MoS2",
    indexFM := 1, raID := "RtP1", threshold := 1/2, failureRate := 1,
    flagCaBaMa := false }

/-- C8.  Realizing the Condition action of component `X` (row label 0)
with realized end date 10000 and pending draw 50000 appends a copy of
`X`'s row at label `lidx = 2` but writes the continuation dates
(start 10000, end 50000, alarm 10000 + (40000/3600)·(1 − ½) h = 30000)
into the row at label `pidx = 1` — which is component `Y`'s row.  After
the sort both `X` rows still carry the old dates while `Y`'s row carries
`X`'s continuation dates, against the claim that the newly appended row
itself carries them. -/
theorem C8_continuation_dates_written_to_previous_last_row :
    coBaMaContinuation [(0, c8rowX), (1, c8rowY)] 0 [50000] 10000 =
      some
        [(0, c8rowX), (1, c8rowX),
         (2, { c8rowY with currentStartDate := 10000,
                           currentEndDate := 50000,
                           currentAlarmDate := 30000 })] := by
  norm_num [coBaMaContinuation, c8rowX, c8rowY, lookupLabel, findDrawIdx,
            updateLabel, sortByKey, insertByKey, resetIndex, attachLabels]

/-! ## C9 — the calendar builder of `__initCalc`
(`main.py` lines 1506-1568; dates in days, `yearDays = 365.25`) -/

/-- The `while startActionDateDummy < endOperationDate` loop of lines
1541-1568, with explicit fuel: emit the window `(start, end)` and
advance both dates by `step` days while the start date is strictly
before the operation end. -/
def emitWindows : Nat → ℚ → ℚ → ℚ → ℚ → List (ℚ × ℚ)
  | 0, _, _, _, _ => []
  | fuel + 1, s, e, step, endOp =>
      if s < endOp then
        (s, e) :: emitWindows fuel (s + step) (e + step) step endOp
      else []

/-- Enough fuel to drain the loop when `0 < step`. -/
def windowFuel (s step endOp : ℚ) : Nat :=
  (⌈(endOp - s) / step⌉).toNat + 1

/-- `main.py` lines 1506-1568, the calendar part of `__initCalc` for one
component: when any of the three policy fields is malformed (start or
end not parseable as a date, interval `NaN`) the component contributes
no rows (`flagDummy`, lines 1526-1529); otherwise, when the start date
lies inside the operation period (lines 1535-1536), one window per
interval is emitted while the running start date is strictly before the
operation end, each advanced by `interval * 365.25` days. -/
def caBaMaWindows (okStart okEnd intervalNaN : Bool)
    (startAction endAction interval : ℚ) (startOp endOp : ℚ) :
    List (ℚ × ℚ) :=
  if !(okStart && okEnd) || intervalNaN then []
  else if startOp ≤ startAction ∧ startAction ≤ endOp then
    emitWindows (windowFuel startAction (interval * (1461/4)) endOp)
      startAction endAction (interval * (1461/4)) endOp
  else []

/-- C9 counterexample.  A well-formed component whose calendar start
date equals the operation end (operation period `[0, 100]`, start 100)
satisfies the claim's `start ≤ operation-end`, so the claim promises
one window at 100 — but the loop guard is strict (`<`, line 1541) and
the builder emits nothing. -/
theorem C9_start_at_operation_end_emits_no_window :
    caBaMaWindows true true false 100 101 1 0 100 = [] ∧
    (0 : ℚ) ≤ 100 ∧ (100 : ℚ) ≤ 100 := by
  refine ⟨?_, by norm_num, le_refl _⟩
  norm_num [caBaMaWindows, windowFuel, emitWindows]

theorem emitWindows_sound (step endOp : ℚ) :
    ∀ (fuel : Nat) (s e : ℚ) (w : ℚ × ℚ),
      w ∈ emitWindows fuel s e step endOp →
      ∃ k : Nat, w = (s + k * step, e + k * step) ∧ s + k * step < endOp := by
  intro fuel
  induction fuel with
  | zero => intro s e w h; simp [emitWindows] at h
  | succ f ih =>
      intro s e w h
      rw [emitWindows] at h
      by_cases hs : s < endOp
      · rw [if_pos hs] at h
        rcases List.mem_cons.mp h with rfl | h
        · exact ⟨0, by push_cast; ring_nf, by simpa using hs⟩
        · rcases ih (s + step) (e + step) w h with ⟨k, hk, hlt⟩
          refine ⟨k + 1, ?_, ?_⟩
          · rw [hk]; push_cast; ring_nf
          · calc s + (k + 1 : Nat) * step
                = s + step + k * step := by push_cast; ring
              _ < endOp := hlt
      · rw [if_neg hs] at h
        simp at h

theorem emitWindows_complete (step endOp : ℚ) (hstep : 0 < step) :
    ∀ (fuel : Nat) (s e : ℚ) (k : Nat),
      k < fuel → s + k * step < endOp →
      (s + k * step, e + k * step) ∈ emitWindows fuel s e step endOp := by
  intro fuel
  induction fuel with
  | zero => intro s e k hk; omega
  | succ f ih =>
      intro s e k hk hlt
      have hs : s < endOp := by
        have h0 : (0 : ℚ) ≤ (k : ℚ) * step :=
          mul_nonneg (Nat.cast_nonneg k) (le_of_lt hstep)
        linarith
      rw [emitWindows, if_pos hs]
      cases k with
      | zero => simp
      | succ k =>
          apply List.mem_cons_of_mem
          have hk2 : k < f := by omega
          have hlt2 : s + step + (k : ℚ) * step < endOp := by
            push_cast at hlt ⊢
            linarith
          have hmem := ih (s + step) (e + step) k hk2 hlt2
          have heq2 : s + step + (k : ℚ) * step = s + ((k + 1 : Nat) : ℚ) * step := by
            push_cast; ring
          have heq3 : e + step + (k : ℚ) * step = e + ((k + 1 : Nat) : ℚ) * step := by
            push_cast; ring
          rw [heq2, heq3] at hmem
          exact hmem

/-- C9 amended.  For a component with well-formed calendar fields whose
start date lies within the operation period and whose interval is
positive, the builder emits exactly the windows whose start date is
*strictly before* the operation end: every date
`start + k · interval · 365.25` strictly before the end yields the
window advanced `k` intervals, every emitted window is of that shape,
and a component with any malformed field is excluded without error. -/
theorem C9_calendar_windows_strictly_before_end
    (startOp endOp startAction endAction interval : ℚ)
    (hlo : startOp ≤ startAction) (hhi : startAction ≤ endOp)
    (hpos : 0 < interval) :
    (∀ k : Nat,
      startAction + k * (interval * (1461/4)) < endOp →
      (startAction + k * (interval * (1461/4)),
        endAction + k * (interval * (1461/4))) ∈
          caBaMaWindows true true false startAction endAction interval
            startOp endOp) ∧
    (∀ w ∈ caBaMaWindows true true false startAction endAction interval
        startOp endOp,
      ∃ k : Nat,
        w = (startAction + k * (interval * (1461/4)),
             endAction + k * (interval * (1461/4))) ∧
        startAction + k * (interval * (1461/4)) < endOp) ∧
    (∀ os oe inan : Bool, (os && oe) = false ∨ inan = true →
      caBaMaWindows os oe inan startAction endAction interval startOp
        endOp = []) := by
  have hstep : 0 < interval * (1461/4) := by positivity
  have hopen : caBaMaWindows true true false startAction endAction interval
      startOp endOp =
        emitWindows (windowFuel startAction (interval * (1461/4)) endOp)
          startAction endAction (interval * (1461/4)) endOp := by
    rw [caBaMaWindows]
    simp only [Bool.and_self, Bool.not_true, Bool.false_or]
    rw [if_neg (by simp), if_pos ⟨hlo, hhi⟩]
  refine ⟨?_, ?_, ?_⟩
  · intro k hk
    rw [hopen]
    apply emitWindows_complete _ _ hstep
    · have h1 : (k : ℚ) * (interval * (1461/4)) < endOp - startAction := by
        linarith
      have h2 : (k : ℚ) < (endOp - startAction) / (interval * (1461/4)) :=
        (lt_div_iff₀ hstep).mpr h1
      have h3 : (k : ℤ) < ⌈(endOp - startAction) / (interval * (1461/4))⌉ := by
        rw [Int.lt_ceil]
        exact_mod_cast h2
      have h4 : k < (⌈(endOp - startAction) / (interval * (1461/4))⌉).toNat := by
        rw [Int.lt_toNat] at *
        exact_mod_cast h3
      unfold windowFuel
      omega
    · exact hk
  · intro w hw
    rw [hopen] at hw
    exact emitWindows_sound _ _ _ _ _ _ hw
  · intro os oe inan h
    rw [caBaMaWindows]
    rcases h with h | h
    · rw [if_pos]
      simp [h]
    · rw [if_pos]
      simp [h]

/-- C9 witness: operation period `[0, 2]`, start 0, interval
`4/1461` years (step exactly one day). -/
theorem C9_calendar_windows_strictly_before_end_witness :
    ((0 : ℚ) ≤ 0 ∧ (0 : ℚ) ≤ 2 ∧ (0 : ℚ) < 4/1461) ∧
    ((∀ k : Nat,
      (0 : ℚ) + k * ((4/1461) * (1461/4)) < 2 →
      ((0 : ℚ) + k * ((4/1461) * (1461/4)),
        (1 : ℚ) + k * ((4/1461) * (1461/4))) ∈
          caBaMaWindows true true false 0 1 (4/1461) 0 2) ∧
    (∀ w ∈ caBaMaWindows true true false 0 1 (4/1461) 0 2,
      ∃ k : Nat,
        w = ((0 : ℚ) + k * ((4/1461) * (1461/4)),
             (1 : ℚ) + k * ((4/1461) * (1461/4))) ∧
        (0 : ℚ) + k * ((4/1461) * (1461/4)) < 2) ∧
    (∀ os oe inan : Bool, (os && oe) = false ∨ inan = true →
      caBaMaWindows os oe inan 0 1 (4/1461) 0 2 = [])) :=
  ⟨⟨le_refl _, by norm_num, by norm_num⟩,
    C9_calendar_windows_strictly_before_end 0 2 0 1 (4/1461)
      (le_refl _) (by norm_num) (by norm_num)⟩

/-! ## C10 — the return flags of `__get_lcoe_calendar`
(`main.py` lines 3240, 3333-3345, 3776-3780) -/

/-- The dataflow of the local track flags of `__get_lcoe_calendar`.
The function's only parameters are `loop` and
`loopValuesForOutput_CaBaMa` (line 3240); `flagCalcCaBaMa`,
`flagCalcUnCoMa` and `flagCalcCoBaMa` are locals that start unbound and
are only (partially) assigned inside the early-break branch of lines
3335-3345 — `flagCalcCaBaMa := False`, then exactly one of
`flagCalcUnCoMa := True` (corrective on) or `flagCalcCoBaMa := True`
(condition on) — before the `break`.  The return at lines 3776-3780
reads all three; an unbound local is `none`, and a `none` read raises
`UnboundLocalError`, making the whole return `none`. -/
def getLcoeCalendarFlagReturn (corrective conditionB earlyBreak : Bool) :
    Option (Bool × Bool × Bool) :=
  let flagCalcCaBaMa : Option Bool := none
  let flagCalcUnCoMa : Option Bool := none
  let flagCalcCoBaMa : Option Bool := none
  let assigned :=
    if earlyBreak then
      let flagCalcCaBaMa := some false
      if corrective then (flagCalcCoBaMa, flagCalcCaBaMa, some true)
      else if conditionB then (some true, flagCalcCaBaMa, flagCalcUnCoMa)
      else (flagCalcCoBaMa, flagCalcCaBaMa, flagCalcUnCoMa)
    else (flagCalcCoBaMa, flagCalcCaBaMa, flagCalcUnCoMa)
  assigned.1.bind (fun a =>
    assigned.2.1.bind (fun b =>
      assigned.2.2.map (fun c => (a, b, c))))

/-- C10.  Whatever the enabled-track configuration and whether or not
the early break of lines 3335-3345 fires, at least one of the three
flags read by the return at lines 3776-3780 is still unbound, so
`__get_lcoe_calendar` never returns its 5-tuple: on normal exhaustion of
all blocks (no early break) all three are unbound and the return raises
`UnboundLocalError`, against the claim that the flag values are defined
there. -/
theorem C10_calendar_return_flags_never_all_bound :
    ∀ corrective conditionB earlyBreak : Bool,
      getLcoeCalendarFlagReturn corrective conditionB earlyBreak = none := by
  decide

end DTOceanMaint
